import Mathlib

/-!
Verification of the Soil-Moisture-App index and erosion-risk calculator
(`src/app.py`) against its specification.

The dashboard delegates raster arithmetic to the Earth Engine service, but
the formulas it submits are fully explicit in `src/app.py`; we embed them
per pixel.  Rasters are modelled per cell: a cell value is a real number
(floating point is modelled by ℝ), a masked cell carries no value
(`Option`).  Exact decimal comparisons (water threshold, rating buckets,
lookup tables) are modelled in ℚ, which represents every literal in the
source exactly.  Remote reductions (the 95th-percentile of the raw risk
over the area of interest) are inputs to the functions that consume them,
matching the spec's "percentile-reduction collaborator".
-/

namespace SoilApp

/-- Error taxonomy of the spec (section 7).  The source delegates failure
behaviour to the remote service; the spec names the conditions. -/
inductive CalcError where
  | UnknownSoilClass
  | InsufficientData
  deriving DecidableEq, Repr

/-- Pointwise clamp, as Earth Engine's `clamp(lo, hi)`: values below `lo`
become `lo`, values above `hi` become `hi`. -/
noncomputable def clampR (x lo hi : ℝ) : ℝ := min (max x lo) hi

/-- Slope factor from `erosion_risk_layer` (src/app.py lines 244-248):
`theta = sin(slope_deg * pi / 180)`, `s_low = theta*10.8 + 0.03`,
`s_high = theta*16.8 - 0.50`, `S = s_low.where(slope_deg >= 5.14, s_high).max(0)`. -/
noncomputable def slopeFactor (slope : ℝ) : ℝ :=
  let theta := Real.sin (slope * (Real.pi / 180))
  let s_low := theta * 10.8 + 0.03
  let s_high := theta * 16.8 - 0.50
  max (if 5.14 ≤ slope then s_high else s_low) 0

/-- The erodibility coefficient table of `erosion_risk_layer`
(src/app.py line 251). -/
def k_values : List ℚ :=
  [0.28, 0.20, 0.15, 0.32, 0.38, 0.40, 0.25, 0.22, 0.26, 0.17, 0.20, 0.15]

/-- The remap table `list(range(1, 13))` zipped with `k_values`
(src/app.py line 252). -/
def soilClassTable : List (ℤ × ℚ) :=
  List.zip ((List.range 12).map fun i => (i : ℤ) + 1) k_values

/-- Modelled from the spec: `tex.remap(list(range(1,13)), k_values)`
(src/app.py line 252) delegates to the remote service, whose behaviour on
classes outside the table is not part of this repository; the spec states
that such classes fail with `UnknownSoilClass`.  Classes found in the
table map to their coefficient. -/
def K_lookup (c : ℤ) : Except CalcError ℚ :=
  match soilClassTable.lookup c with
  | some k => Except.ok k
  | none => Except.error CalcError.UnknownSoilClass

/-- NDVI clamping from `erosion_risk_layer` (src/app.py line 254):
`ndvi.where(ndvi < 0, 0).where(ndvi > 1, 1)` - both `where` tests read the
original `ndvi_img`. -/
noncomputable def ndviClamped (ndvi : ℝ) : ℝ :=
  let x1 := if ndvi < 0 then 0 else ndvi
  if 1 < ndvi then 1 else x1

/-- Cover factor `C = 1 - ndvi_clamped` (src/app.py line 255). -/
noncomputable def coverFactor (ndvi : ℝ) : ℝ := 1 - ndviClamped ndvi

/-- Normalization step of `erosion_risk_layer` (src/app.py line 259):
`risk.divide(p95.max(1e-6)).clamp(0, 1)`, where `p95` is the value the
percentile reducer returned for the area of interest. -/
noncomputable def normalizeRisk (raw p95 : ℝ) : ℝ :=
  clampR (raw / max p95 1e-6) 0 1

/-- Per-pixel value of `erosion_risk_layer` (src/app.py lines 240-259):
`S * K * C`, then normalized.  A pixel whose soil class has no table entry
carries no risk value. -/
noncomputable def erosion_risk_pixel (slope : ℝ) (soil : ℤ) (ndvi : ℝ)
    (p95 : ℝ) : Option ℝ :=
  match K_lookup soil with
  | Except.ok k => some (normalizeRisk (slopeFactor slope * (k : ℝ) * coverFactor ndvi) p95)
  | Except.error _ => none

/-- One cell of the three stacked input rasters of `erosion_risk_layer`;
`none` is a masked (invalid) cell in that layer. -/
structure Pixel where
  slope : Option ℝ
  soil : Option ℤ
  ndvi : Option ℝ

/-- Raw (pre-normalization) risk of one cell: defined only where all three
inputs are valid and the soil class is in the table. -/
noncomputable def rawRiskPixel (p : Pixel) : Option ℝ :=
  match p.slope, p.soil, p.ndvi with
  | some s, some c, some n =>
    match K_lookup c with
    | Except.ok k => some (slopeFactor s * (k : ℝ) * coverFactor n)
    | Except.error _ => none
  | _, _, _ => none

/-- Modelled from the spec: `erosion_risk_layer` over a whole area of
interest.  The percentile reduction (src/app.py line 258) runs remotely and
is not part of this repository; per the spec, an area of interest with no
valid pixels fails with `InsufficientData` instead of being normalized. -/
noncomputable def erosion_risk_layer (pixels : List Pixel) (p95 : ℝ) :
    Except CalcError (List ℝ) :=
  match pixels.filterMap rawRiskPixel with
  | [] => Except.error CalcError.InsufficientData
  | vs => Except.ok (vs.map fun raw => normalizeRisk raw p95)

/-- Modelled from the spec: the imagery service's `normalizedDifference`
(src/app.py line 374) computes `(A - B) / (A + B)`; where `A + B = 0` the
spec's edge-case policy is that the cell is masked out (no data) rather
than carrying a floating-point NaN. -/
noncomputable def normalizedDifference (a b : ℝ) : Option ℝ :=
  if a + b = 0 then none else some ((a - b) / (a + b))

/-- Water threshold test from `compute_water_pct` (src/app.py line 227,
`ndwi_img.gt(thresh)`, default threshold 0.2) and the water-mask overlay
(src/app.py line 395, `ndwi_img.gt(0.2)`). -/
def waterMask (ndwi : ℚ) (thresh : ℚ := 0.2) : Bool :=
  decide (thresh < ndwi)

/-- Rounding to two decimal places, as `round(x, 2)` in `compute_water_pct`
(src/app.py line 235).  Python rounds ties to even; `round` here rounds
ties up, which agrees with Python everywhere except exact half-hundredth
ties, and no property proved below depends on tie direction. -/
def round2 (x : ℚ) : ℚ := (round (x * 100) : ℚ) / 100

/-- `compute_water_pct` (src/app.py lines 225-238) after both remote sum
reductions returned: `w` is the masked-to-water pixel-area sum, `a` the
total pixel-area sum; a reduction that produced no value is `none`.  The
guard is Python's `if w_val and a_val and a_val > 0`, so a zero water area
is falsy and yields `None`. -/
def compute_water_pct (w a : Option ℚ) : Option ℚ :=
  match w, a with
  | some wv, some av =>
    if wv ≠ 0 ∧ av ≠ 0 ∧ 0 < av then some (round2 (100 * wv / av)) else none
  | _, _ => none

/-- Erosion rating bucketing of the AOI summary (src/app.py lines 604-608):
start at "Low", override with "High" when the mean is at least 0.66, else
with "Moderate" when it is at least 0.33. -/
def erosionRating (m : ℚ) : String :=
  if 0.66 ≤ m then "High" else if 0.33 ≤ m then "Moderate" else "Low"

/-! ## Helper lemmas -/

theorem slopeFactor_eq (slope : ℝ) :
    slopeFactor slope =
      max (if 5.14 ≤ slope then Real.sin (slope * (Real.pi / 180)) * 16.8 - 0.50
           else Real.sin (slope * (Real.pi / 180)) * 10.8 + 0.03) 0 := rfl

theorem ndviClamped_eq (ndvi : ℝ) :
    ndviClamped ndvi = if 1 < ndvi then 1 else if ndvi < 0 then 0 else ndvi := rfl

theorem slopeFactor_nonneg (slope : ℝ) : 0 ≤ slopeFactor slope := by
  rw [slopeFactor_eq]; exact le_max_right _ _

theorem coverFactor_nonneg (ndvi : ℝ) : 0 ≤ coverFactor ndvi := by
  unfold coverFactor
  rw [ndviClamped_eq]
  split_ifs with h1 h2
  · norm_num
  · norm_num
  · linarith [not_lt.mp h1]

theorem lookup_eq_none_of_no_key {β : Type} (c : ℤ) (ps : List (ℤ × β))
    (h : ∀ p ∈ ps, c ≠ p.1) : ps.lookup c = none := by
  induction ps with
  | nil => rfl
  | cons hd tl ih =>
    obtain ⟨k, v⟩ := hd
    have hne : (c == k) = false :=
      beq_eq_false_iff_ne.mpr (h (k, v) (List.mem_cons_self _ _))
    simp only [List.lookup, hne]
    exact ih fun p hp => h p (List.mem_cons_of_mem _ hp)

/-! ## Claims -/

/-- Claim C3: the erodibility lookup maps integer soil-texture classes 1
through 12 to, in order, [0.28, 0.20, 0.15, 0.32, 0.38, 0.40, 0.25, 0.22,
0.26, 0.17, 0.20, 0.15], and every class outside 1..12 fails with
`UnknownSoilClass`. -/
theorem claim_C3_erodibility_lookup :
    (K_lookup 1 = Except.ok 0.28 ∧ K_lookup 2 = Except.ok 0.20 ∧
     K_lookup 3 = Except.ok 0.15 ∧ K_lookup 4 = Except.ok 0.32 ∧
     K_lookup 5 = Except.ok 0.38 ∧ K_lookup 6 = Except.ok 0.40 ∧
     K_lookup 7 = Except.ok 0.25 ∧ K_lookup 8 = Except.ok 0.22 ∧
     K_lookup 9 = Except.ok 0.26 ∧ K_lookup 10 = Except.ok 0.17 ∧
     K_lookup 11 = Except.ok 0.20 ∧ K_lookup 12 = Except.ok 0.15) ∧
    ∀ c : ℤ, (c < 1 ∨ 12 < c) →
      K_lookup c = Except.error CalcError.UnknownSoilClass := by
  constructor
  · exact ⟨rfl, rfl, rfl, rfl, rfl, rfl, rfl, rfl, rfl, rfl, rfl, rfl⟩
  · intro c hc
    have htab : soilClassTable =
        [(1, (0.28 : ℚ)), (2, 0.20), (3, 0.15), (4, 0.32), (5, 0.38),
         (6, 0.40), (7, 0.25), (8, 0.22), (9, 0.26), (10, 0.17),
         (11, 0.20), (12, 0.15)] := rfl
    have hnone : soilClassTable.lookup c = none := by
      apply lookup_eq_none_of_no_key
      rw [htab]
      intro p hp
      fin_cases hp <;> simp <;> omega
    unfold K_lookup
    rw [hnone]

/-- Claim C3 witness: soil classes 0 and 13 fail with `UnknownSoilClass`. -/
theorem claim_C3_witness :
    K_lookup 0 = Except.error CalcError.UnknownSoilClass ∧
    K_lookup 13 = Except.error CalcError.UnknownSoilClass :=
  ⟨claim_C3_erodibility_lookup.2 0 (Or.inl (by norm_num)),
   claim_C3_erodibility_lookup.2 13 (Or.inr (by norm_num))⟩

/-- Claim C5: where the two bands sum to zero, the normalized-difference
computation masks the cell out (produces no data); it never silently
propagates a floating-point NaN for such a cell. -/
theorem claim_C5_nd_zero_denominator (a b : ℝ) (h : a + b = 0) :
    normalizedDifference a b = none := by
  simp [normalizedDifference, h]

/-- Claim C5 witness: the cell with bands 1 and -1 is masked out. -/
theorem claim_C5_witness : normalizedDifference 1 (-1) = none :=
  claim_C5_nd_zero_denominator 1 (-1) (by norm_num)

/-- Claim C6: for same-shaped nonnegative bands whose sum is nonzero at a
cell, the normalized-difference value of that cell lies in [-1, 1]. -/
theorem claim_C6_nd_bounds (a b r : ℝ) (ha : 0 ≤ a) (hb : 0 ≤ b)
    (hab : a + b ≠ 0) (h : normalizedDifference a b = some r) :
    -1 ≤ r ∧ r ≤ 1 := by
  have hpos : 0 < a + b := lt_of_le_of_ne (by linarith) (Ne.symm hab)
  rw [normalizedDifference, if_neg hab] at h
  have hr : r = (a - b) / (a + b) := by
    injection h with h
    exact h.symm
  subst hr
  constructor
  · rw [le_div_iff₀ hpos]
    linarith
  · rw [div_le_one hpos]
    linarith

/-- Claim C6 witness: bands 3 and 1 give the in-range value (3-1)/(3+1). -/
theorem claim_C6_witness :
    -1 ≤ ((3 : ℝ) - 1) / (3 + 1) ∧ ((3 : ℝ) - 1) / (3 + 1) ≤ 1 :=
  claim_C6_nd_bounds 3 1 _ (by norm_num) (by norm_num) (by norm_num)
    (by rw [normalizedDifference, if_neg (show ¬((3 : ℝ) + 1 = 0) by norm_num)])

/-- Claim C8: the water mask is true exactly at cells strictly above the
threshold, and the NDWI row [-0.5, 0.1, 0.25, 0.9] with threshold 0.2
yields the mask [false, false, true, true]. -/
theorem claim_C8_water_mask :
    (∀ v t : ℚ, waterMask v t = true ↔ t < v) ∧
    ([-0.5, 0.1, 0.25, 0.9] : List ℚ).map (fun v => waterMask v 0.2) =
      [false, false, true, true] := by
  constructor
  · intro v t
    simp [waterMask]
  · simp only [List.map, List.cons.injEq, and_true]
    refine ⟨?_, ?_, ?_, ?_⟩ <;> simp only [waterMask, decide_eq_false_iff_not,
      decide_eq_true_eq] <;> norm_num

/-- Claim C9: the displayed erosion rating for a mean risk m in [0, 1] is
"Low" when m < 0.33, "Moderate" when 0.33 ≤ m < 0.66, and "High" when
m ≥ 0.66. -/
theorem claim_C9_erosion_rating (m : ℚ) (_h0 : 0 ≤ m) (_h1 : m ≤ 1) :
    (m < 0.33 → erosionRating m = "Low") ∧
    (0.33 ≤ m → m < 0.66 → erosionRating m = "Moderate") ∧
    (0.66 ≤ m → erosionRating m = "High") := by
  refine ⟨?_, ?_, ?_⟩
  · intro h
    have h66 : ¬(0.66 : ℚ) ≤ m := by linarith
    have h33 : ¬(0.33 : ℚ) ≤ m := by linarith
    simp [erosionRating, h66, h33]
  · intro h h2
    have h66 : ¬(0.66 : ℚ) ≤ m := by linarith
    simp [erosionRating, h66, h]
  · intro h
    simp [erosionRating, h]

/-- Claim C9 witness: means 0.2, 0.5 and 0.7 are rated Low, Moderate and
High respectively. -/
theorem claim_C9_witness :
    erosionRating 0.2 = "Low" ∧ erosionRating 0.5 = "Moderate" ∧
    erosionRating 0.7 = "High" :=
  ⟨(claim_C9_erosion_rating 0.2 (by norm_num) (by norm_num)).1 (by norm_num),
   (claim_C9_erosion_rating 0.5 (by norm_num) (by norm_num)).2.1 (by norm_num)
     (by norm_num),
   (claim_C9_erosion_rating 0.7 (by norm_num) (by norm_num)).2.2 (by norm_num)⟩

/-- Claim C1: every valid pixel's erosion risk equals the raw product
S·K·C divided by max(p95, 1e-6) and clamped to [0, 1]; hence the output is
in [0, 1] regardless of input magnitude. -/
theorem claim_C1_risk_normalized (slope ndvi p95 : ℝ) (soil : ℤ) (k : ℚ)
    (r : ℝ) (hk : K_lookup soil = Except.ok k)
    (hr : erosion_risk_pixel slope soil ndvi p95 = some r) :
    r = clampR ((slopeFactor slope * (k : ℝ) * coverFactor ndvi) /
        max p95 1e-6) 0 1 ∧
    0 ≤ r ∧ r ≤ 1 := by
  unfold erosion_risk_pixel at hr
  rw [hk] at hr
  have heq : r = normalizeRisk (slopeFactor slope * (k : ℝ) * coverFactor ndvi)
      p95 := by
    injection hr with h
    exact h.symm
  subst heq
  refine ⟨rfl, le_min (le_max_right _ _) zero_le_one, min_le_right _ _⟩

/-- Claim C1 witness: the pixel with slope 0, soil class 1, NDVI 0 and
p95 = 1 gets the normalized, clamped value, which is in [0, 1]. -/
theorem claim_C1_witness :
    0 ≤ clampR ((slopeFactor 0 * ((0.28 : ℚ) : ℝ) * coverFactor 0) /
        max 1 1e-6) 0 1 ∧
    clampR ((slopeFactor 0 * ((0.28 : ℚ) : ℝ) * coverFactor 0) /
        max 1 1e-6) 0 1 ≤ 1 :=
  (claim_C1_risk_normalized 0 0 1 1 0.28
    (clampR ((slopeFactor 0 * ((0.28 : ℚ) : ℝ) * coverFactor 0) /
      max 1 1e-6) 0 1) rfl rfl).2

/-- Claim C4: an area of interest in which some input layer (slope, soil
class or NDVI) has no valid pixels makes the erosion-risk computation fail
with `InsufficientData` instead of returning a normalized value. -/
theorem claim_C4_insufficient_data (pixels : List Pixel) (p95 : ℝ)
    (h : pixels.filterMap (fun p => p.slope) = [] ∨
         pixels.filterMap (fun p => p.soil) = [] ∨
         pixels.filterMap (fun p => p.ndvi) = []) :
    erosion_risk_layer pixels p95 = Except.error CalcError.InsufficientData := by
  have hall : ∀ p ∈ pixels, rawRiskPixel p = none := by
    intro p hp
    rcases h with h | h | h
    · have hs : p.slope = none := List.filterMap_eq_nil_iff.mp h p hp
      cases hc : p.soil <;> cases hn : p.ndvi <;> simp [rawRiskPixel, hs]
    · have hc : p.soil = none := List.filterMap_eq_nil_iff.mp h p hp
      cases hs : p.slope <;> cases hn : p.ndvi <;> simp [rawRiskPixel, hs, hc]
    · have hn : p.ndvi = none := List.filterMap_eq_nil_iff.mp h p hp
      cases hs : p.slope <;> cases hc : p.soil <;> simp [rawRiskPixel, hs, hc, hn]
  have hempty : pixels.filterMap rawRiskPixel = [] :=
    List.filterMap_eq_nil_iff.mpr hall
  unfold erosion_risk_layer
  rw [hempty]

/-- Claim C4 witness: a one-pixel area whose slope layer is masked fails
with `InsufficientData`. -/
theorem claim_C4_witness :
    erosion_risk_layer [⟨none, some 1, some 0⟩] 1 =
      Except.error CalcError.InsufficientData :=
  claim_C4_insufficient_data [⟨none, some 1, some 0⟩] 1 (Or.inl rfl)

/-- Claim C7: for fixed slope factor and cover factor (and the same
normalization denominator), the normalized risk is non-decreasing in the
erodibility coefficient K. -/
theorem claim_C7_monotone_in_K (slope ndvi p95 k1 k2 : ℝ) (h : k1 ≤ k2) :
    normalizeRisk (slopeFactor slope * k1 * coverFactor ndvi) p95 ≤
      normalizeRisk (slopeFactor slope * k2 * coverFactor ndvi) p95 := by
  have hS : 0 ≤ slopeFactor slope := slopeFactor_nonneg slope
  have hC : 0 ≤ coverFactor ndvi := coverFactor_nonneg ndvi
  have hraw : slopeFactor slope * k1 * coverFactor ndvi ≤
      slopeFactor slope * k2 * coverFactor ndvi :=
    mul_le_mul_of_nonneg_right (mul_le_mul_of_nonneg_left h hS) hC
  have hden : (0 : ℝ) < max p95 1e-6 := lt_max_of_lt_right (by norm_num)
  unfold normalizeRisk clampR
  have hdiv : slopeFactor slope * k1 * coverFactor ndvi / max p95 1e-6 ≤
      slopeFactor slope * k2 * coverFactor ndvi / max p95 1e-6 := by
    rw [div_eq_mul_inv, div_eq_mul_inv]
    exact mul_le_mul_of_nonneg_right hraw (inv_nonneg.mpr hden.le)
  exact min_le_min (max_le_max hdiv le_rfl) le_rfl

/-- Claim C7 witness: with slope 0, NDVI 0 and p95 = 1, the risk at
K = 0.1 is at most the risk at K = 0.2. -/
theorem claim_C7_witness :
    normalizeRisk (slopeFactor 0 * 0.1 * coverFactor 0) 1 ≤
      normalizeRisk (slopeFactor 0 * 0.2 * coverFactor 0) 1 :=
  claim_C7_monotone_in_K 0 0 1 0.1 0.2 (by norm_num)

/-- Claim C10: `compute_water_pct` returns the rounded percentage
100·w/a (which lies in [0, 100] when 0 ≤ w ≤ a) only when both reduction
results are truthy and the total area is positive; in every other case -
including a water area of exactly 0 - it returns None. -/
theorem claim_C10_compute_water_pct :
    (∀ w a : ℚ, w ≠ 0 → 0 < a →
      compute_water_pct (some w) (some a) = some (round2 (100 * w / a))) ∧
    (∀ w a r : ℚ, 0 ≤ w → w ≤ a → 0 < a →
      compute_water_pct (some w) (some a) = some r → 0 ≤ r ∧ r ≤ 100) ∧
    (∀ a : Option ℚ, compute_water_pct (some 0) a = none) ∧
    (∀ w a : ℚ, ¬(w ≠ 0 ∧ a ≠ 0 ∧ 0 < a) →
      compute_water_pct (some w) (some a) = none) ∧
    (∀ o : Option ℚ, compute_water_pct none o = none ∧
      compute_water_pct o none = none) := by
  have hround_mem : ∀ x : ℚ, 0 ≤ x → x ≤ 100 → 0 ≤ round2 x ∧ round2 x ≤ 100 := by
    intro x hx0 hx100
    unfold round2
    constructor
    · have h1 : (0 : ℤ) ≤ round (x * 100) := by
        rw [round_eq]
        have : (0 : ℤ) = ⌊(0 : ℚ) + 1 / 2⌋ := by norm_num
        rw [this]
        exact Int.floor_le_floor (by linarith)
      have h2 : (0 : ℚ) ≤ (round (x * 100) : ℚ) := by exact_mod_cast h1
      exact div_nonneg h2 (by norm_num)
    · have h1 : round (x * 100) ≤ (10000 : ℤ) := by
        rw [round_eq]
        have : (10000 : ℤ) = ⌊(10000 : ℚ) + 1 / 2⌋ := by norm_num
        rw [this]
        exact Int.floor_le_floor (by linarith)
      have h2 : (round (x * 100) : ℚ) ≤ 10000 := by exact_mod_cast h1
      linarith
  refine ⟨?_, ?_, ?_, ?_, ?_⟩
  · intro w a hw ha
    have ha0 : a ≠ 0 := ne_of_gt ha
    simp [compute_water_pct, hw, ha0, ha]
  · intro w a r hw0 hwa ha hr
    rcases eq_or_ne w 0 with hw | hw
    · subst hw
      simp [compute_water_pct] at hr
    · have ha0 : a ≠ 0 := ne_of_gt ha
      simp [compute_water_pct, hw, ha0, ha] at hr
      subst hr
      apply hround_mem
      · exact div_nonneg (by linarith) ha.le
      · rw [div_le_iff₀ ha]
        linarith
  · intro a
    cases a <;> simp [compute_water_pct]
  · intro w a hcond
    simp only [compute_water_pct, if_neg hcond]
  · intro o
    constructor
    · rfl
    · cases o <;> rfl

/-- Claim C10 witness: water 1 over total 4 gives 25.00 percent; a zero
water area, a missing reduction, and a non-positive total all give None. -/
theorem claim_C10_witness :
    compute_water_pct (some 1) (some 4) = some (round2 (100 * 1 / 4)) ∧
    compute_water_pct (some 0) (some 5) = none ∧
    compute_water_pct none (some 5) = none ∧
    compute_water_pct (some 1) (some 0) = none ∧
    (0 ≤ round2 (100 * 1 / 4) ∧ round2 (100 * 1 / 4) ≤ 100) :=
  ⟨claim_C10_compute_water_pct.1 1 4 (by norm_num) (by norm_num),
   claim_C10_compute_water_pct.2.2.1 (some 5),
   (claim_C10_compute_water_pct.2.2.2.2 (some 5)).1,
   claim_C10_compute_water_pct.2.2.2.1 1 0 (by norm_num),
   claim_C10_compute_water_pct.2.1 1 4 (round2 (100 * 1 / 4)) (by norm_num)
     (by norm_num) (by norm_num)
     (claim_C10_compute_water_pct.1 1 4 (by norm_num) (by norm_num))⟩

/-- Claim C2: the slope factor equals max(0, 10.8·sin(slope·π/180) + 0.03)
below 5.14 degrees and max(0, 16.8·sin(slope·π/180) − 0.50) otherwise;
S(0°) = 0.03, and S(10°) = 16.8·sin(10°) − 0.50, which is approximately
2.417 (bracketed here between 2.40 and 2.44). -/
theorem claim_C2_slope_factor :
    (∀ slope : ℝ, slopeFactor slope =
        if slope < 5.14 then
          max 0 (10.8 * Real.sin (slope * (Real.pi / 180)) + 0.03)
        else max 0 (16.8 * Real.sin (slope * (Real.pi / 180)) - 0.50)) ∧
    slopeFactor 0 = 0.03 ∧
    slopeFactor 10 = 16.8 * Real.sin (10 * (Real.pi / 180)) - 0.50 ∧
    2.40 < slopeFactor 10 ∧ slopeFactor 10 < 2.44 := by
  have hbranch : ∀ slope : ℝ, slopeFactor slope =
      if slope < 5.14 then
        max 0 (10.8 * Real.sin (slope * (Real.pi / 180)) + 0.03)
      else max 0 (16.8 * Real.sin (slope * (Real.pi / 180)) - 0.50) := by
    intro slope
    rw [slopeFactor_eq]
    rcases lt_or_le slope 5.14 with hlt | hge
    · rw [if_pos hlt, if_neg (not_le.mpr hlt), max_comm]
      congr 1
      ring
    · rw [if_neg (not_lt.mpr hge), if_pos hge, max_comm]
      congr 1
      ring
  have h0 : slopeFactor 0 = 0.03 := by
    rw [slopeFactor_eq, if_neg (by norm_num : ¬(5.14 : ℝ) ≤ 0), zero_mul,
      Real.sin_zero, zero_mul, zero_add]
    exact max_eq_left (by norm_num)
  set x : ℝ := 10 * (Real.pi / 180) with hxdef
  have hx_eq : x = Real.pi / 18 := by rw [hxdef]; ring
  have hpi_lo := Real.pi_gt_d6
  have hpi_hi := Real.pi_lt_d2
  have hx_lo : (0.1745 : ℝ) < x := by rw [hx_eq]; linarith
  have hx_hi : x < 0.175 := by rw [hx_eq]; linarith
  have hx_pos : 0 < x := lt_trans (by norm_num) hx_lo
  have hx_le1 : x ≤ 1 := le_of_lt (lt_trans hx_hi (by norm_num))
  have hcube := Real.sin_gt_sub_cube hx_pos hx_le1
  have hx3 : x ^ 3 ≤ (0.175 : ℝ) ^ 3 :=
    pow_le_pow_left₀ hx_pos.le hx_hi.le 3
  have hx3n : x ^ 3 ≤ 0.005359375 := by
    calc x ^ 3 ≤ (0.175 : ℝ) ^ 3 := hx3
    _ = 0.005359375 := by norm_num
  have hsin_lb : (0.173 : ℝ) < Real.sin x := by linarith
  have hsin_ub : Real.sin x < 0.175 := lt_trans (Real.sin_lt hx_pos) hx_hi
  have h10 : slopeFactor 10 = Real.sin x * 16.8 - 0.50 := by
    rw [slopeFactor_eq, if_pos (by norm_num : (5.14 : ℝ) ≤ 10), ← hxdef]
    exact max_eq_left (by linarith)
  refine ⟨hbranch, h0, ?_, ?_, ?_⟩
  · rw [h10]
    ring
  · rw [h10]
    linarith
  · rw [h10]
    linarith

end SoilApp
